import Mathlib

/-
Verification of the domain resolution-and-aggregation core of the CF CLI
domain repository and the domains listing command (src/cf/api/domains.go).

The paginated collaborator (gateway.ListPaginatedResources) delivers the
decoded items of a collection in server page order and may end with a
transport/decode failure.  A collection endpoint is therefore embedded as a
stream: the list of items delivered before the walk would fail, together
with an optional terminal fetch error.  The per-item callbacks of the Go
code are closures over mutable locals; they are embedded as explicit
state-passing functions returning the updated state and the continue flag
(true = keep walking, false = stop, no further page fetched).
-/

/-- Fields of a domain record (models.DomainFields), restricted to the
fields the core reads. -/
structure DomainFields where
  guid : String
  name : String
  owningOrganizationGuid : String
  shared : Bool
  routerGroupGuid : String
deriving DecidableEq

/-- The zero value models.DomainFields\x7b\x7d returned on failure paths. -/
def emptyDomain : DomainFields :=
  { guid := "", name := "", owningOrganizationGuid := "", shared := false,
    routerGroupGuid := "" }

/-- Errors produced by the repository core: a model-not-found error
(errors.NewModelNotFoundError with entity kind and identifier), a transport
error surfaced by a page fetch, and the plain "Could not find a default
domain" error of defaultDomain. -/
inductive RepoError where
  | modelNotFound (kind ident : String)
  | transport (msg : String)
  | noDefaultDomain
deriving DecidableEq

/-- A paginated collection endpoint: the items the server would deliver in
page order, and an optional transport/decode failure ending the stream.
An error striking after k delivered items is embedded by a stream whose
item list holds exactly those k items. -/
structure DomainStream where
  items : List DomainFields
  fetchErr : Option String
deriving DecidableEq

/-- The page walk shared by all collection endpoints: deliver items in
order to the callback, stop as soon as it returns false.  Returns the final
callback state, the delivered items, and whether the callback stopped the
walk early. -/
def walkItems {σ α : Type} (cb : σ → α → σ × Bool) : σ → List α → σ × List α × Bool
  | st, [] => (st, [], false)
  | st, x :: rest =>
    match cb st x with
    | (st', true) =>
      match walkItems cb st' rest with
      | (st'', tr, stopped) => (st'', x :: tr, stopped)
    | (st', false) => (st', [x], true)

/-- gateway.ListPaginatedResources: walk the stream's items; the terminal
fetch error surfaces only when the callback never stopped the walk (a page
the consumer does not need is never fetched). -/
def listPaginatedResources {σ α : Type} (items : List α) (fetchErr : Option String)
    (cb : σ → α → σ × Bool) (st : σ) : σ × List α × Option String :=
  match walkItems cb st items with
  | (st', tr, stopped) => (st', tr, if stopped then none else fetchErr)

/-- CloudControllerDomainRepository.listDomains for one collection path. -/
def listDomains {σ : Type} (s : DomainStream) (cb : σ → DomainFields → σ × Bool)
    (st : σ) : σ × List DomainFields × Option String :=
  listPaginatedResources s.items s.fetchErr cb st

/-- CloudControllerDomainRepository.ListDomainsForOrg: walk the org's
private-domain collection, abort on its error, then walk the shared-domain
collection with the same callback. -/
def ListDomainsForOrg {σ : Type} (privStream sharedStream : DomainStream)
    (cb : σ → DomainFields → σ × Bool) (st : σ) :
    σ × List DomainFields × Option String :=
  match listDomains privStream cb st with
  | (st1, tr1, some e) => (st1, tr1, some e)
  | (st1, tr1, none) =>
    match listDomains sharedStream cb st1 with
    | (st2, tr2, e2) => (st2, tr1 ++ tr2, e2)

/-- CloudControllerDomainRepository.findOneWithPath: record the first item
and stop; a walk error becomes a transport error; an error-free walk that
delivered nothing becomes a model-not-found error. -/
def findOneWithPath (s : DomainStream) (name : String) :
    DomainFields × Option RepoError :=
  match listDomains s (fun (_ : Bool × DomainFields) result => ((true, result), false))
      (false, emptyDomain) with
  | ((foundDomain, domain), _, errW) =>
    let err : Option RepoError :=
      match errW with
      | some e => some (RepoError.transport e)
      | none =>
        if foundDomain then none else some (RepoError.modelNotFound "Domain" name)
    match err with
    | some e => (emptyDomain, some e)
    | none => (domain, none)

/-- CloudControllerDomainRepository.FindSharedByName. -/
def FindSharedByName (s : DomainStream) (name : String) :
    DomainFields × Option RepoError :=
  findOneWithPath s name

/-- CloudControllerDomainRepository.FindPrivateByName. -/
def FindPrivateByName (s : DomainStream) (name : String) :
    DomainFields × Option RepoError :=
  findOneWithPath s name

/-- CloudControllerDomainRepository.FindByNameInOrg: org-scoped lookup
first; on a model-not-found error fall back to the shared-scope lookup and
replace the error by model-not-found whenever the returned record is not
shared. -/
def FindByNameInOrg (orgStream sharedStream : DomainStream) (name : String) :
    DomainFields × Option RepoError :=
  let r := findOneWithPath orgStream name
  let r2 :=
    match r.snd with
    | some (RepoError.modelNotFound _ _) =>
      let rs := FindSharedByName sharedStream name
      if !rs.fst.shared then (rs.fst, some (RepoError.modelNotFound "Domain" name))
      else rs
    | _ => r
  match r2.snd with
  | some e => (emptyDomain, some e)
  | none => (r2.fst, none)

/-- CloudControllerDomainRepository.defaultDomain: walk all domains visible
to the org, recording each item and continuing exactly when the item is not
shared; the walk's error is discarded (the Go code ignores the return value
of ListDomainsForOrg); fail with the no-default-domain error when nothing
was recorded. -/
def defaultDomain (privStream sharedStream : DomainStream) :
    DomainFields × Option RepoError :=
  match ListDomainsForOrg privStream sharedStream
      (fun (_ : Option DomainFields) domain => (some domain, !domain.shared)) none with
  | (foundDomain, _, _) =>
    match foundDomain with
    | none => (emptyDomain, some RepoError.noDefaultDomain)
    | some d => (d, none)

/-- A router group record (models.RouterGroup), restricted to the fields
the core reads. -/
structure RouterGroup where
  guid : String
  name : String
  type : String
deriving DecidableEq

/-- The paginated router-group collection endpoint. -/
structure RouterGroupStream where
  items : List RouterGroup
  fetchErr : Option String
deriving DecidableEq

/-- RoutingApiRepository.ListRouterGroups over the stream, same walk
contract as the domain collections. -/
def ListRouterGroups {σ : Type} (s : RouterGroupStream)
    (cb : σ → RouterGroup → σ × Bool) (st : σ) :
    σ × List RouterGroup × Option String :=
  listPaginatedResources s.items s.fetchErr cb st

/-- The Go map routerGroupsMap, embedded as an association list where new
entries are prepended; the first match found by lookupRG is therefore the
last write, matching Go map assignment semantics. -/
def lookupRG : List (String × RouterGroup) → String → Option RouterGroup
  | [], _ => none
  | (k', v) :: rest, k => if k' = k then some v else lookupRG rest k

/-- ListDomains.getRouterGroups: walk the full router-group collection (the
callback always continues), building the id-keyed map; on a walk error
return the empty map and the error. -/
def getRouterGroups (s : RouterGroupStream) :
    List (String × RouterGroup) × Option String :=
  match ListRouterGroups s
      (fun (m : List (String × RouterGroup)) rg => ((rg.guid, rg) :: m, true)) [] with
  | (_, _, some e) => ([], some e)
  | (m, _, none) => (m, none)

/-- Go map indexing routerGroups[guid].Type: the group's type, or the zero
value when the key is absent. -/
def rgType (m : List (String × RouterGroup)) (k : String) : String :=
  match lookupRG m k with
  | some rg => rg.type
  | none => ""

/-- The condition in ListDomains.getDomains's callback that switches on
router-group population: domain.Shared && domain.RouterGroupGuid != "". -/
def needsRouterGroup (d : DomainFields) : Bool :=
  d.shared && d.routerGroupGuid != ""

/-- ListDomains.getDomains: collect every domain visible to the org in
stream order (the callback always continues), flagging whether any collected
domain needs router groups; on a walk error return the empty collection and
the error. -/
def getDomains (privStream sharedStream : DomainStream) :
    List DomainFields × Bool × Option String :=
  match ListDomainsForOrg privStream sharedStream
      (fun (acc : List DomainFields × Bool) domain =>
        ((acc.1 ++ [domain], acc.2 || needsRouterGroup domain), true))
      ([], false) with
  | ((_, _), _, some e) => ([], false, some e)
  | ((domains, populate), _, none) => (domains, populate, none)

/-- The table row printed for a shared domain: name, shared, and the router
group's type when the domain carries a router group reference. -/
def sharedRow (routerGroups : List (String × RouterGroup)) (d : DomainFields) :
    List String :=
  if d.routerGroupGuid != "" then [d.name, "shared", rgType routerGroups d.routerGroupGuid]
  else [d.name, "shared"]

/-- ListDomains.printDomainsTable: one loop adding a row per shared domain,
then a separate loop adding a row per private domain, keeping the private
domains at the end; rows are the table's contents in insertion order. -/
def printDomainsTable (domains : List DomainFields)
    (routerGroups : List (String × RouterGroup)) : List (List String) :=
  (domains.foldl
      (fun rows d => if d.shared then rows ++ [sharedRow routerGroups d] else rows) [])
    ++ (domains.foldl
      (fun rows d => if !d.shared then rows ++ [[d.name, "owned"]] else rows) [])

/-- The validation loop of ListDomains.Execute: the first collected domain
that is shared, carries a router group reference, and whose reference is
absent from the index aborts with its guid (ui.Failed panics at the first
offender). -/
def findInvalidRef (domains : List DomainFields)
    (routerGroups : List (String × RouterGroup)) : Option String :=
  match domains with
  | [] => none
  | d :: rest =>
    if d.shared && d.routerGroupGuid != "" && (lookupRG routerGroups d.routerGroupGuid).isNone
    then some d.routerGroupGuid
    else findInvalidRef rest routerGroups

/-- The observable outcome of ListDomains.Execute: a fatal failure message
(ui.Failed panics), the no-domains message, or the printed table rows. -/
inductive ExecuteResult where
  | failedFetchingDomains (e : String)
  | noDomainsFound
  | failedFetchingRouterGroups (e : String)
  | invalidRouterGroupGuid (guid : String)
  | table (rows : List (List String))
deriving DecidableEq

/-- ListDomains.Execute: collect the org's domains (abort on error), render
the no-domains message on an empty collection, conditionally fetch and
validate the router-group index (abort on fetch error or on the first
invalid reference), then print the table. -/
def ListDomainsExecute (privStream sharedStream : DomainStream)
    (rgStream : RouterGroupStream) : ExecuteResult :=
  match getDomains privStream sharedStream with
  | (_, _, some e) => ExecuteResult.failedFetchingDomains e
  | (domains, populateRouterGroups, none) =>
    if domains.length = 0 then ExecuteResult.noDomainsFound
    else if populateRouterGroups then
      match getRouterGroups rgStream with
      | (_, some e) => ExecuteResult.failedFetchingRouterGroups e
      | (routerGroups, none) =>
        match findInvalidRef domains routerGroups with
        | some g => ExecuteResult.invalidRouterGroupGuid g
        | none => ExecuteResult.table (printDomainsTable domains routerGroups)
    else ExecuteResult.table (printDomainsTable domains [])

/-- Selector over a single visible stream, written from the specified
policy restated against the code's callback: the first shared domain when
one exists, otherwise the last domain of the stream. -/
def firstSharedOrLast : List DomainFields → Option DomainFields
  | [] => none
  | d :: rest =>
    if d.shared then some d
    else
      match firstSharedOrLast rest with
      | some x => some x
      | none => some d

/-- The items of one collection delivered to a callback: every item up to
and including the first item on which the callback returns false, threading
the callback state.  Written from the claim's wording about delivery, to be
compared with the walk's trace. -/
def upToStop {σ α : Type} (cb : σ → α → σ × Bool) : σ → List α → σ × List α
  | st, [] => (st, [])
  | st, x :: rest =>
    match cb st x with
    | (st', true) =>
      match upToStop cb st' rest with
      | (st'', tr) => (st'', x :: tr)
    | (st', false) => (st', [x])

/-- The last router group of a stream carrying a given guid, used to state
the last-write-wins property of the index. -/
def lastFind : List RouterGroup → String → Option RouterGroup
  | [], _ => none
  | x :: rest, k =>
    match lastFind rest k with
    | some r => some r
    | none => if x.guid = k then some x else none

/-- A walk whose callback never stops is a left fold over the items: every
item is delivered and the early-stop flag stays false. -/
theorem walkItems_of_true {σ α : Type} (cb : σ → α → σ × Bool)
    (h : ∀ st x, (cb st x).2 = true) :
    ∀ (st : σ) (l : List α),
      walkItems cb st l = (l.foldl (fun s x => (cb s x).1) st, l, false) := by
  intro st l
  induction l generalizing st with
  | nil => rfl
  | cons x rest ih =>
    have hx := h st x
    rcases hcb : cb st x with ⟨st', c⟩
    rw [hcb] at hx
    subst hx
    simp [walkItems, hcb, ih]

/-- The walk's final state and trace coincide with upToStop. -/
theorem walkItems_upToStop {σ α : Type} (cb : σ → α → σ × Bool) :
    ∀ (st : σ) (l : List α),
      ((walkItems cb st l).1, (walkItems cb st l).2.1) = upToStop cb st l := by
  intro st l
  induction l generalizing st with
  | nil => rfl
  | cons x rest ih =>
    rcases hcb : cb st x with ⟨st', c⟩
    cases c with
    | false => simp [walkItems, upToStop, hcb]
    | true =>
      rcases hw : walkItems cb st' rest with ⟨st'', tr, stopped⟩
      have := ih st'
      rw [hw] at this
      simp [walkItems, upToStop, hcb, hw, ← this]

/-- Accumulating fold of the getDomains callback. -/
theorem foldl_collect :
    ∀ (l acc : List DomainFields) (b : Bool),
      l.foldl (fun ab d => (ab.1 ++ [d], ab.2 || needsRouterGroup d)) (acc, b)
        = (acc ++ l, b || l.any needsRouterGroup) := by
  intro l
  induction l with
  | nil => intro acc b; simp
  | cons x rest ih =>
    intro acc b
    simp [List.foldl_cons, ih, Bool.or_assoc]

/-- getDomains on error-free streams collects the private items followed by
the shared items and flags router-group population exactly when some
collected domain needs it. -/
theorem getDomains_ok (p q : DomainStream) (hp : p.fetchErr = none)
    (hq : q.fetchErr = none) :
    getDomains p q
      = (p.items ++ q.items, (p.items ++ q.items).any needsRouterGroup, none) := by
  have hcb : ∀ (st : List DomainFields × Bool) (d : DomainFields),
      ((fun (acc : List DomainFields × Bool) domain =>
        ((acc.1 ++ [domain], acc.2 || needsRouterGroup domain), true)) st d).2 = true :=
    fun _ _ => rfl
  simp only [getDomains, ListDomainsForOrg, listDomains, listPaginatedResources,
    walkItems_of_true _ hcb, hp, hq]
  simp [foldl_collect, foldl_collect p.items [] false]

/-- A fetch error in the private-domain walk of getDomains aborts with that
same error. -/
theorem getDomains_priv_err (p q : DomainStream) (e : String)
    (hp : p.fetchErr = some e) :
    getDomains p q = ([], false, some e) := by
  have hcb : ∀ (st : List DomainFields × Bool) (d : DomainFields),
      ((fun (acc : List DomainFields × Bool) domain =>
        ((acc.1 ++ [domain], acc.2 || needsRouterGroup domain), true)) st d).2 = true :=
    fun _ _ => rfl
  simp [getDomains, ListDomainsForOrg, listDomains, listPaginatedResources,
    walkItems_of_true _ hcb, hp]

/-- A fetch error in the shared-domain walk of getDomains aborts with that
same error. -/
theorem getDomains_shared_err (p q : DomainStream) (e : String)
    (hp : p.fetchErr = none) (hq : q.fetchErr = some e) :
    getDomains p q = ([], false, some e) := by
  have hcb : ∀ (st : List DomainFields × Bool) (d : DomainFields),
      ((fun (acc : List DomainFields × Bool) domain =>
        ((acc.1 ++ [domain], acc.2 || needsRouterGroup domain), true)) st d).2 = true :=
    fun _ _ => rfl
  simp [getDomains, ListDomainsForOrg, listDomains, listPaginatedResources,
    walkItems_of_true _ hcb, hp, hq]

/-- findOneWithPath on a stream that delivers an item returns that first
item and no error, independently of the stream's tail and terminal error
(the walk stops at the first item, so no further page is fetched). -/
theorem findOneWithPath_cons (s : DomainStream) (name : String) (d : DomainFields)
    (rest : List DomainFields) (h : s.items = d :: rest) :
    findOneWithPath s name = (d, none) := by
  simp [findOneWithPath, listDomains, listPaginatedResources, h, walkItems]

/-- findOneWithPath on an empty error-free stream fails with the
model-not-found error. -/
theorem findOneWithPath_nil_none (s : DomainStream) (name : String)
    (h1 : s.items = []) (h2 : s.fetchErr = none) :
    findOneWithPath s name = (emptyDomain, some (RepoError.modelNotFound "Domain" name)) := by
  simp [findOneWithPath, listDomains, listPaginatedResources, h1, h2, walkItems]

/-- findOneWithPath on an empty stream ending in a fetch error surfaces that
error as a transport error. -/
theorem findOneWithPath_nil_err (s : DomainStream) (name : String) (e : String)
    (h1 : s.items = []) (h2 : s.fetchErr = some e) :
    findOneWithPath s name = (emptyDomain, some (RepoError.transport e)) := by
  simp [findOneWithPath, listDomains, listPaginatedResources, h1, h2, walkItems]

/-- Lookup in the prepending fold building the router-group map returns the
last streamed group with the key, falling back to the initial map. -/
theorem lookupRG_foldl :
    ∀ (items : List RouterGroup) (acc : List (String × RouterGroup)) (k : String),
      lookupRG (items.foldl (fun m rg => (rg.guid, rg) :: m) acc) k
        = match lastFind items k with
          | some r => some r
          | none => lookupRG acc k := by
  intro items
  induction items with
  | nil => intro acc k; rfl
  | cons x rest ih =>
    intro acc k
    rw [List.foldl_cons, ih ((x.guid, x) :: acc) k]
    cases hf : lastFind rest k with
    | some r => simp [lastFind, hf]
    | none =>
      by_cases hk : x.guid = k <;> simp [lastFind, hf, lookupRG, hk]

/-- getRouterGroups on an error-free stream returns no error. -/
theorem getRouterGroups_snd_none (s : RouterGroupStream) (h : s.fetchErr = none) :
    (getRouterGroups s).snd = none := by
  have hcb : ∀ (st : List (String × RouterGroup)) (rg : RouterGroup),
      ((fun (m : List (String × RouterGroup)) rg => ((rg.guid, rg) :: m, true)) st rg).2
        = true := fun _ _ => rfl
  simp [getRouterGroups, ListRouterGroups, listPaginatedResources,
    walkItems_of_true _ hcb, h]

/-- The index built by getRouterGroups on an error-free stream is the fold
of its items. -/
theorem getRouterGroups_fst (s : RouterGroupStream) (h : s.fetchErr = none) :
    (getRouterGroups s).fst
      = s.items.foldl (fun m rg => (rg.guid, rg) :: m) [] := by
  have hcb : ∀ (st : List (String × RouterGroup)) (rg : RouterGroup),
      ((fun (m : List (String × RouterGroup)) rg => ((rg.guid, rg) :: m, true)) st rg).2
        = true := fun _ _ => rfl
  simp [getRouterGroups, ListRouterGroups, listPaginatedResources,
    walkItems_of_true _ hcb, h]

/-- A fold adding one row per item passing the test appends, in input
order, the image of the filtered input. -/
theorem foldl_filter_map {α β : Type} (p : α → Bool) (f : α → β) :
    ∀ (l : List α) (acc : List β),
      l.foldl (fun rows d => if p d then rows ++ [f d] else rows) acc
        = acc ++ (l.filter p).map f := by
  intro l
  induction l with
  | nil => intro acc; simp
  | cons x rest ih =>
    intro acc
    by_cases hx : p x <;> simp [List.filter_cons, hx, ih]

/-- A guid returned by the validation loop belongs to a collected shared
domain whose non-empty router group reference is absent from the index. -/
theorem findInvalidRef_some :
    ∀ (l : List DomainFields) (idx : List (String × RouterGroup)) (g : String),
      findInvalidRef l idx = some g →
      ∃ d ∈ l, d.shared = true ∧ d.routerGroupGuid = g ∧ g ≠ ""
        ∧ lookupRG idx g = none := by
  intro l
  induction l with
  | nil => intro idx g h; simp [findInvalidRef] at h
  | cons d rest ih =>
    intro idx g h
    rw [findInvalidRef] at h
    by_cases hc : (d.shared && d.routerGroupGuid != ""
        && (lookupRG idx d.routerGroupGuid).isNone) = true
    · rw [if_pos hc] at h
      obtain ⟨⟨h1, h2⟩, h3⟩ := by simpa [Bool.and_eq_true] using hc
      refine ⟨d, List.mem_cons_self d rest, h1, by injection h, ?_, ?_⟩
      · injection h with h'
        rw [← h']
        exact h2
      · injection h with h'
        rw [← h']
        exact h3
    · rw [if_neg hc] at h
      obtain ⟨d', hd', hrest⟩ := ih idx g h
      exact ⟨d', List.mem_cons_of_mem d hd', hrest⟩

/-- If some collected domain has a missing router group reference, the
validation loop finds one. -/
theorem findInvalidRef_isSome :
    ∀ (l : List DomainFields) (idx : List (String × RouterGroup)),
      (∃ d ∈ l, d.shared = true ∧ d.routerGroupGuid ≠ ""
        ∧ lookupRG idx d.routerGroupGuid = none) →
      (findInvalidRef l idx).isSome = true := by
  intro l
  induction l with
  | nil => intro idx h; simp at h
  | cons d rest ih =>
    intro idx h
    rw [findInvalidRef]
    by_cases hc : (d.shared && d.routerGroupGuid != ""
        && (lookupRG idx d.routerGroupGuid).isNone) = true
    · rw [if_pos hc]; rfl
    · rw [if_neg hc]
      rcases h with ⟨d', hd', hsh, hne, hlk⟩
      rcases List.mem_cons.mp hd' with heq | hmem
      · exfalso
        apply hc
        subst heq
        simp [hsh, bne_iff_ne.mpr hne, Option.isNone_iff_eq_none.mpr hlk]
      · exact ih idx ⟨d', hmem, hsh, hne, hlk⟩

/-- If every collected shared domain's non-empty router group reference
resolves in the index, the validation loop finds nothing. -/
theorem findInvalidRef_none :
    ∀ (l : List DomainFields) (idx : List (String × RouterGroup)),
      (∀ d ∈ l, d.shared = true → d.routerGroupGuid ≠ "" →
        (lookupRG idx d.routerGroupGuid).isSome = true) →
      findInvalidRef l idx = none := by
  intro l
  induction l with
  | nil => intro idx _; rfl
  | cons d rest ih =>
    intro idx h
    rw [findInvalidRef]
    have hc : (d.shared && d.routerGroupGuid != ""
        && (lookupRG idx d.routerGroupGuid).isNone) = false := by
      by_cases hsh : d.shared = true
      · by_cases hne : d.routerGroupGuid = ""
        · simp [hne]
        · have := h d (List.mem_cons_self d rest) hsh hne
          cases hlk : lookupRG idx d.routerGroupGuid with
          | none => rw [hlk] at this; simp at this
          | some r => simp [hlk]
      · simp [Bool.eq_false_iff.mpr hsh]
    rw [hc, if_neg (by simp)]
    exact ih idx (fun d' hd' => h d' (List.mem_cons_of_mem d hd'))

/-- ListDomains.Execute on error-free domain walks, reduced to the
empty-check, the conditional router-group fetch, the validation gate, and
the table. -/
theorem listDomainsExecute_ok (p q : DomainStream) (rg : RouterGroupStream)
    (hp : p.fetchErr = none) (hq : q.fetchErr = none) :
    ListDomainsExecute p q rg =
      (if (p.items ++ q.items).length = 0 then ExecuteResult.noDomainsFound
       else if (p.items ++ q.items).any needsRouterGroup then
         match getRouterGroups rg with
         | (_, some e) => ExecuteResult.failedFetchingRouterGroups e
         | (routerGroups, none) =>
           match findInvalidRef (p.items ++ q.items) routerGroups with
           | some g => ExecuteResult.invalidRouterGroupGuid g
           | none =>
             ExecuteResult.table (printDomainsTable (p.items ++ q.items) routerGroups)
       else ExecuteResult.table (printDomainsTable (p.items ++ q.items) [])) := by
  rw [ListDomainsExecute, getDomains_ok p q hp hq]

/-- The defaultDomain callback over a list of non-shared domains records
every item, never stops, and leaves the last item (or the initial state on
an empty list) as the candidate. -/
theorem walkItems_all_private (l : List DomainFields) (h : ∀ d ∈ l, d.shared = false) :
    ∀ st : Option DomainFields,
      walkItems (fun (_ : Option DomainFields) d => (some d, !d.shared)) st l
        = (match firstSharedOrLast l with
           | none => st
           | some d => some d, l, false) := by
  induction l with
  | nil => intro st; rfl
  | cons x rest ih =>
    intro st
    have hx : x.shared = false := h x (List.mem_cons_self x rest)
    have hrest : ∀ d ∈ rest, d.shared = false :=
      fun d hd => h d (List.mem_cons_of_mem x hd)
    rw [walkItems]
    simp only [hx, Bool.not_false]
    rw [ih hrest (some x)]
    cases hf : firstSharedOrLast rest <;>
      simp [firstSharedOrLast, hx, hf]

/-- Prefixed by non-shared domains, the first-shared selector picks the
first shared element after the prefix. -/
theorem firstSharedOrLast_append_shared (pre : List DomainFields) (d : DomainFields)
    (rest : List DomainFields) (hpre : ∀ x ∈ pre, x.shared = false)
    (hd : d.shared = true) :
    firstSharedOrLast (pre ++ d :: rest) = some d := by
  induction pre with
  | nil => simp [firstSharedOrLast, hd]
  | cons x pre' ih =>
    have hx : x.shared = false := hpre x (List.mem_cons_self x pre')
    have hpre' : ∀ y ∈ pre', y.shared = false :=
      fun y hy => hpre y (List.mem_cons_of_mem x hy)
    rw [List.cons_append, firstSharedOrLast]
    simp [hx, ih hpre']

/-- Claim C1, counterexample: a transport error in the walk behind
defaultDomain is discarded and replaced by the no-default-domain error, and
a transport error in FindByNameInOrg's shared-scope fallback is replaced by
the model-not-found error; neither is propagated as the transport error. -/
theorem transport_error_replaced_counterexample :
    defaultDomain ⟨[], none⟩ ⟨[], some "boom"⟩
        = (emptyDomain, some RepoError.noDefaultDomain) ∧
    (defaultDomain ⟨[], none⟩ ⟨[], some "boom"⟩).snd
        ≠ some (RepoError.transport "boom") ∧
    FindByNameInOrg ⟨[], none⟩ ⟨[], some "boom"⟩ "example.com"
        = (emptyDomain, some (RepoError.modelNotFound "Domain" "example.com")) ∧
    (FindByNameInOrg ⟨[], none⟩ ⟨[], some "boom"⟩ "example.com").snd
        ≠ some (RepoError.transport "boom") := by
  refine ⟨rfl, ?_, rfl, ?_⟩ <;> decide

/-- Claim C1 (amended): a page-fetch failure is propagated unchanged by
findOneWithPath and aborts getDomains with the same error; but
defaultDomain discards the walk's error (an empty delivery yields the
no-default-domain error even when the fetch failed), and FindByNameInOrg's
shared-scope fallback replaces a fetch error by the model-not-found error
for the requested name. -/
theorem transport_error_propagation_amended (e name : String) :
    (∀ s : DomainStream, s.items = [] → s.fetchErr = some e →
      findOneWithPath s name = (emptyDomain, some (RepoError.transport e))) ∧
    (∀ p q : DomainStream, p.fetchErr = some e →
      getDomains p q = ([], false, some e)) ∧
    (∀ p q : DomainStream, p.fetchErr = none → q.fetchErr = some e →
      getDomains p q = ([], false, some e)) ∧
    (∀ p q : DomainStream, p.items = [] → q.items = [] →
      defaultDomain p q = (emptyDomain, some RepoError.noDefaultDomain)) ∧
    (∀ orgS shrS : DomainStream, orgS.items = [] → orgS.fetchErr = none →
      shrS.items = [] → shrS.fetchErr = some e →
      FindByNameInOrg orgS shrS name
        = (emptyDomain, some (RepoError.modelNotFound "Domain" name))) := by
  refine ⟨fun s h1 h2 => findOneWithPath_nil_err s name e h1 h2,
    fun p q hp => getDomains_priv_err p q e hp,
    fun p q hp hq => getDomains_shared_err p q e hp hq, ?_, ?_⟩
  · intro p q h1 h2
    rw [defaultDomain]
    cases hpf : p.fetchErr <;>
      simp [ListDomainsForOrg, listDomains, listPaginatedResources, h1, h2, hpf,
        walkItems]
  · intro orgS shrS h1 h2 h3 h4
    simp [FindByNameInOrg, FindSharedByName,
      findOneWithPath_nil_none orgS name h1 h2,
      findOneWithPath_nil_err shrS name e h3 h4, emptyDomain]

/-- Claim C1 (amended), witness at concrete inputs. -/
theorem transport_error_propagation_amended_witness :
    findOneWithPath ⟨[], some "boom"⟩ "example.com"
        = (emptyDomain, some (RepoError.transport "boom")) ∧
    getDomains ⟨[], some "boom"⟩ ⟨[], none⟩ = ([], false, some "boom") ∧
    defaultDomain ⟨[], some "boom"⟩ ⟨[], none⟩
        = (emptyDomain, some RepoError.noDefaultDomain) ∧
    FindByNameInOrg ⟨[], none⟩ ⟨[], some "boom"⟩ "example.com"
        = (emptyDomain, some (RepoError.modelNotFound "Domain" "example.com")) :=
  ⟨(transport_error_propagation_amended "boom" "example.com").1 _ rfl rfl,
   (transport_error_propagation_amended "boom" "example.com").2.1 _ _ rfl,
   (transport_error_propagation_amended "boom" "example.com").2.2.2.1 _ _ rfl rfl,
   (transport_error_propagation_amended "boom" "example.com").2.2.2.2 _ _ rfl rfl rfl rfl⟩

/-- Claim C2, counterexample: on the visible set of two shared domains x
then y, the selector returns x, the first shared domain, not y, the last
shared domain the claim requires. -/
theorem defaultDomain_last_shared_counterexample :
    defaultDomain ⟨[], none⟩
        ⟨[⟨"guid-x", "x", "", true, ""⟩, ⟨"guid-y", "y", "", true, ""⟩], none⟩
      = (⟨"guid-x", "x", "", true, ""⟩, none) ∧
    (defaultDomain ⟨[], none⟩
        ⟨[⟨"guid-x", "x", "", true, ""⟩, ⟨"guid-y", "y", "", true, ""⟩], none⟩).fst.name
      ≠ "y" := by
  refine ⟨rfl, ?_⟩
  decide

/-- Claim C2 (amended): over the visible stream (private collection then
shared collection, with private items non-shared and shared items shared,
the walk error-free on the private side), defaultDomain returns the first
shared domain encountered, stopping the walk immediately at it; if every
visible domain is private the walk runs to completion and the last private
domain is returned; and on an empty visible set it fails with the
no-default-domain error. -/
theorem defaultDomain_first_shared_else_last (p q : DomainStream)
    (hp : p.fetchErr = none)
    (hpriv : ∀ d ∈ p.items, d.shared = false)
    (hshr : ∀ d ∈ q.items, d.shared = true) :
    defaultDomain p q =
      match firstSharedOrLast (p.items ++ q.items) with
      | none => (emptyDomain, some RepoError.noDefaultDomain)
      | some d => (d, none) := by
  rw [defaultDomain]
  simp only [ListDomainsForOrg, listDomains, listPaginatedResources,
    walkItems_all_private p.items hpriv none, hp]
  cases hq : q.items with
  | nil =>
    cases hf : firstSharedOrLast p.items <;>
      simp [walkItems, hf, List.append_nil]
  | cons d0 rest0 =>
    have hd0 : d0.shared = true :=
      hshr d0 (by rw [hq]; exact List.mem_cons_self d0 rest0)
    rw [firstSharedOrLast_append_shared p.items d0 rest0 hpriv hd0]
    cases hf : firstSharedOrLast p.items <;>
      simp [walkItems, hd0, hf]

/-- Claim C2 (amended), witness: a private domain followed by a shared
domain selects the shared one. -/
theorem defaultDomain_first_shared_else_last_witness :
    defaultDomain ⟨[⟨"gp", "p", "org", false, ""⟩], none⟩
        ⟨[⟨"gx", "x", "", true, ""⟩], none⟩
      = (⟨"gx", "x", "", true, ""⟩, none) :=
  (defaultDomain_first_shared_else_last _ _ rfl (by decide) (by decide)).trans
    (by decide)

/-- Claim C3: with both domain walks and the router-group fetch error-free,
whenever the validation loop names a guid the whole operation fails with
the invalid-router-group error carrying that guid and produces no table;
the named guid is a collected shared domain's non-empty reference absent
from the index; a missing reference anywhere in the collection makes the
loop name one; and when every reference resolves the invalid-reference
error is never raised. -/
theorem listDomains_invalid_router_group_gate (p q : DomainStream)
    (rg : RouterGroupStream) (hp : p.fetchErr = none) (hq : q.fetchErr = none)
    (hrg : rg.fetchErr = none) :
    (∀ g, findInvalidRef (p.items ++ q.items) (getRouterGroups rg).fst = some g →
      ListDomainsExecute p q rg = ExecuteResult.invalidRouterGroupGuid g) ∧
    (∀ g, findInvalidRef (p.items ++ q.items) (getRouterGroups rg).fst = some g →
      ∃ d ∈ p.items ++ q.items, d.shared = true ∧ d.routerGroupGuid = g ∧ g ≠ ""
        ∧ lookupRG (getRouterGroups rg).fst g = none) ∧
    ((∃ d ∈ p.items ++ q.items, d.shared = true ∧ d.routerGroupGuid ≠ ""
        ∧ lookupRG (getRouterGroups rg).fst d.routerGroupGuid = none) →
      (findInvalidRef (p.items ++ q.items) (getRouterGroups rg).fst).isSome = true) ∧
    ((∀ d ∈ p.items ++ q.items, d.shared = true → d.routerGroupGuid ≠ "" →
        (lookupRG (getRouterGroups rg).fst d.routerGroupGuid).isSome = true) →
      ∀ g, ListDomainsExecute p q rg ≠ ExecuteResult.invalidRouterGroupGuid g) := by
  have hgr : getRouterGroups rg = ((getRouterGroups rg).fst, none) :=
    Prod.ext rfl (getRouterGroups_snd_none rg hrg)
  refine ⟨?_, fun g hg => findInvalidRef_some _ _ g hg,
    findInvalidRef_isSome _ _, ?_⟩
  · intro g hg
    obtain ⟨d, hd, hsh, hguid, hgne, hlk⟩ := findInvalidRef_some _ _ g hg
    have hlen : ¬ (p.items ++ q.items).length = 0 := by
      intro h0
      rw [List.length_eq_zero] at h0
      rw [h0] at hd
      exact absurd hd (List.not_mem_nil d)
    have hpop : (p.items ++ q.items).any needsRouterGroup = true := by
      rw [List.any_eq_true]
      refine ⟨d, hd, ?_⟩
      have : d.routerGroupGuid ≠ "" := by rw [hguid]; exact hgne
      simp [needsRouterGroup, hsh, bne_iff_ne.mpr this]
    rw [listDomainsExecute_ok p q rg hp hq, if_neg hlen]
    simp only [hpop, if_true]
    rw [hgr]
    simp only [hg]
  · intro hall g
    rw [listDomainsExecute_ok p q rg hp hq]
    by_cases hlen : (p.items ++ q.items).length = 0
    · simp [hlen]
    · rw [if_neg hlen]
      cases hpop : (p.items ++ q.items).any needsRouterGroup with
      | false => simp [hpop]
      | true =>
        simp only [hpop, if_true]
        rw [hgr]
        simp only [findInvalidRef_none _ _ hall]
        simp

/-- Claim C3, witness: a shared domain referencing guid rg1 against an
empty router-group index aborts with the invalid-router-group error for
rg1. -/
theorem listDomains_invalid_router_group_gate_witness :
    ListDomainsExecute ⟨[], none⟩ ⟨[⟨"g1", "sh", "", true, "rg1"⟩], none⟩ ⟨[], none⟩
      = ExecuteResult.invalidRouterGroupGuid "rg1" :=
  (listDomains_invalid_router_group_gate _ _ _ rfl rfl rfl).1 "rg1" rfl

/-- Claim C4: when the org-scoped lookup's stream delivers a match, it is
returned with no error and the shared collection's contents are irrelevant
(the shared stream is universally quantified and absent from the result). -/
theorem findByNameInOrg_private_priority (orgS shrS : DomainStream) (name : String)
    (d : DomainFields) (rest : List DomainFields) (h : orgS.items = d :: rest) :
    FindByNameInOrg orgS shrS name = (d, none) := by
  simp [FindByNameInOrg, findOneWithPath_cons orgS name d rest h]

/-- Claim C4, witness. -/
theorem findByNameInOrg_private_priority_witness :
    FindByNameInOrg ⟨[⟨"ga", "a", "org", false, ""⟩], none⟩ ⟨[], some "ignored"⟩ "a"
      = (⟨"ga", "a", "org", false, ""⟩, none) :=
  findByNameInOrg_private_priority _ _ "a" _ [] rfl

/-- Claim C5: when the org-scoped lookup finds nothing and the shared-scope
fallback delivers a record, that record is returned only if its shared flag
is true; otherwise the lookup fails with the model-not-found error for the
name. -/
theorem findByNameInOrg_shared_fallback_validation (orgS shrS : DomainStream)
    (name : String) (d : DomainFields) (rest : List DomainFields)
    (h1 : orgS.items = []) (h2 : orgS.fetchErr = none)
    (h3 : shrS.items = d :: rest) :
    FindByNameInOrg orgS shrS name =
      if d.shared then (d, none)
      else (emptyDomain, some (RepoError.modelNotFound "Domain" name)) := by
  simp only [FindByNameInOrg, FindSharedByName,
    findOneWithPath_nil_none orgS name h1 h2,
    findOneWithPath_cons shrS name d rest h3]
  cases hd : d.shared <;> simp [hd]

/-- Claim C5, witness: a non-shared record returned by the fallback is
rejected as not found. -/
theorem findByNameInOrg_shared_fallback_validation_witness :
    FindByNameInOrg ⟨[], none⟩ ⟨[⟨"gb", "b", "other-org", false, ""⟩], none⟩ "b"
      = (emptyDomain, some (RepoError.modelNotFound "Domain" "b")) :=
  (findByNameInOrg_shared_fallback_validation _ _ "b" _ [] rfl rfl rfl).trans
    (by decide)

/-- Claim C6: a name matching no record in the org-scoped collection nor in
the shared collection fails with the model-not-found error of entity kind
Domain and the requested name, returning the empty domain value. -/
theorem findByNameInOrg_not_found (orgS shrS : DomainStream) (name : String)
    (h1 : orgS.items = []) (h2 : orgS.fetchErr = none)
    (h3 : shrS.items = []) (h4 : shrS.fetchErr = none) :
    FindByNameInOrg orgS shrS name
      = (emptyDomain, some (RepoError.modelNotFound "Domain" name)) := by
  simp [FindByNameInOrg, FindSharedByName,
    findOneWithPath_nil_none orgS name h1 h2,
    findOneWithPath_nil_none shrS name h3 h4, emptyDomain]

/-- Claim C6, witness. -/
theorem findByNameInOrg_not_found_witness :
    FindByNameInOrg ⟨[], none⟩ ⟨[], none⟩ "absent.example"
      = (emptyDomain, some (RepoError.modelNotFound "Domain" "absent.example")) :=
  findByNameInOrg_not_found _ _ "absent.example" rfl rfl rfl rfl

/-- Claim C7: the rendered table is a stable partition of the collected
stream: the rows of the shared domains, in stream order, followed by the
rows of the private domains, in stream order. -/
theorem printDomainsTable_stable_partition (domains : List DomainFields)
    (routerGroups : List (String × RouterGroup)) :
    printDomainsTable domains routerGroups
      = (domains.filter (fun d => d.shared)).map (sharedRow routerGroups)
        ++ (domains.filter (fun d => !d.shared)).map (fun d => [d.name, "owned"]) := by
  rw [printDomainsTable,
    foldl_filter_map (fun d => d.shared) (sharedRow routerGroups) domains [],
    foldl_filter_map (fun d => !d.shared) (fun d => [d.name, "owned"]) domains []]
  simp

/-- Claim C8: the items ListDomainsForOrg delivers to the callback are
exactly the private-collection items up to and including the first item on
which the callback returns false, followed by the shared-collection items
up to and including the first such item; a stop during the private walk
does not prevent the shared walk. -/
theorem listDomainsForOrg_delivery {σ : Type} (p q : DomainStream)
    (cb : σ → DomainFields → σ × Bool) (st : σ) (hp : p.fetchErr = none) :
    (ListDomainsForOrg p q cb st).2.1 =
      (upToStop cb st p.items).2
        ++ (upToStop cb (upToStop cb st p.items).1 q.items).2 := by
  rcases hw1 : walkItems cb st p.items with ⟨st1, tr1, stopped1⟩
  have h1 := walkItems_upToStop cb st p.items
  rw [hw1] at h1
  rcases hw2 : walkItems cb st1 q.items with ⟨st2, tr2, stopped2⟩
  have h2 := walkItems_upToStop cb st1 q.items
  rw [hw2] at h2
  simp only [ListDomainsForOrg, listDomains, listPaginatedResources, hw1, hp, ← h1]
  cases stopped1 <;> simp [hw2, ← h2]

/-- Claim C8, witness: with a callback stopping at every item, the private
walk stops after its first item yet the shared collection is still walked
and delivers its first item. -/
theorem listDomainsForOrg_delivery_witness :
    (ListDomainsForOrg
        ⟨[⟨"1", "d1", "org", false, ""⟩, ⟨"2", "d2", "org", false, ""⟩], none⟩
        ⟨[⟨"3", "d3", "", true, ""⟩, ⟨"4", "d4", "", true, ""⟩], none⟩
        (fun (n : Nat) _ => (n + 1, false)) 0).2.1
      = [⟨"1", "d1", "org", false, ""⟩, ⟨"3", "d3", "", true, ""⟩] :=
  (listDomainsForOrg_delivery _ _ (fun (n : Nat) _ => (n + 1, false)) 0 rfl).trans
    (by decide)

/-- Claim C9: on an error-free router-group stream the index builder raises
no error and maps every key to the last streamed group carrying it, so
every streamed group appears under its id and on duplicate ids the last
streamed group wins. -/
theorem getRouterGroups_index_spec (s : RouterGroupStream) (h : s.fetchErr = none) :
    (getRouterGroups s).snd = none ∧
    ∀ k, lookupRG (getRouterGroups s).fst k = lastFind s.items k := by
  refine ⟨getRouterGroups_snd_none s h, fun k => ?_⟩
  rw [getRouterGroups_fst s h, lookupRG_foldl s.items [] k]
  cases hf : lastFind s.items k <;> simp [lookupRG]

/-- Claim C9, witness: two groups sharing guid rg1; the index holds the
second, last-streamed one. -/
theorem getRouterGroups_index_spec_witness :
    (getRouterGroups ⟨[⟨"rg1", "a", "t1"⟩, ⟨"rg1", "b", "t2"⟩], none⟩).snd = none ∧
    lookupRG (getRouterGroups ⟨[⟨"rg1", "a", "t1"⟩, ⟨"rg1", "b", "t2"⟩], none⟩).fst "rg1"
      = lastFind [⟨"rg1", "a", "t1"⟩, ⟨"rg1", "b", "t2"⟩] "rg1" :=
  ⟨(getRouterGroups_index_spec _ rfl).1, (getRouterGroups_index_spec _ rfl).2 "rg1"⟩

/-- Claim C10: an organization with zero visible domains and error-free
domain walks yields the no-domains result for any router-group stream
whatsoever — no failure, no not-found error, and no router-group fetch
(the outcome is independent of the router-group stream). -/
theorem listDomainsExecute_empty (p q : DomainStream) (rg : RouterGroupStream)
    (hpi : p.items = []) (hp : p.fetchErr = none)
    (hqi : q.items = []) (hq : q.fetchErr = none) :
    ListDomainsExecute p q rg = ExecuteResult.noDomainsFound := by
  rw [listDomainsExecute_ok p q rg hp hq]
  simp [hpi, hqi]

/-- Claim C10, witness: the router-group stream may even end in a fetch
error; the empty listing still renders the no-domains result. -/
theorem listDomainsExecute_empty_witness :
    ListDomainsExecute ⟨[], none⟩ ⟨[], none⟩ ⟨[⟨"r", "n", "t"⟩], some "err"⟩
      = ExecuteResult.noDomainsFound :=
  listDomainsExecute_empty _ _ _ rfl rfl rfl rfl

